import Mathlib

/-!
Shallow embedding of `internal/provider/providers/beget/provider.go` from the
ddns-updater-beget repository, together with proofs of the specification
claims about it.

Modelling conventions:
* Go `[]byte` JSON payloads are modelled by the inductive `Json` type below;
  a raw HTTP response body is a `Body`, which is either well-formed JSON or
  malformed text (on which `json.Unmarshal` fails).
* Go `map[string]json.RawMessage` is modelled as an association list with
  Go-map insert semantics (`insertAssoc`); `encoding/json` marshals Go maps
  with keys in sorted order, modelled by `sortByKey`.
* The HTTP client (`*http.Client`) is modelled as a `Transport` function from
  requests to transport results; `apiCall` and `Update` additionally return
  the requests they issued, which is the recording-transport instrumentation
  used to state "no write request is issued" claims.
* Machine integers (the `priority` field) are modelled as `Int`; no overflow
  arises in the source.
-/

/-- Model of a JSON value (Go `encoding/json` data). `num` carries an `Int`
since the program only ever handles integer numbers (the `priority` field). -/
inductive Json where
  | null
  | bool (b : Bool)
  | num (n : Int)
  | str (s : String)
  | arr (elems : List Json)
  | obj (fields : List (String × Json))
deriving Repr

/-- Hexadecimal digit for values 0..15, as used in JSON \uXXXX escapes. -/
def hexDigit (n : Nat) : Char :=
  if n < 10 then Char.ofNat (48 + n) else Char.ofNat (87 + n)

/-- Escape one character the way Go `encoding/json` escapes string contents
(quotes, backslashes and control characters). -/
def escapeChar (c : Char) : String :=
  if c = '"' then "\\\""
  else if c = '\\' then "\\\\"
  else if c = '\n' then "\\n"
  else if c = '\r' then "\\r"
  else if c = '\t' then "\\t"
  else if c.toNat < 32 then
    "\\u00" ++ String.singleton (hexDigit (c.toNat / 16)) ++ String.singleton (hexDigit (c.toNat % 16))
  else String.singleton c

/-- Escape a whole string for JSON serialization. -/
def escapeString (s : String) : String :=
  s.data.foldl (fun acc c => acc ++ escapeChar c) ""

mutual

/-- Serialize a JSON value to its compact textual form, as Go
`encoding/json.Marshal` emits it. -/
def Json.serialize : Json → String
  | .null => "null"
  | .bool true => "true"
  | .bool false => "false"
  | .num n => toString n
  | .str s => "\"" ++ escapeString s ++ "\""
  | .arr elems => "[" ++ serializeItems elems ++ "]"
  | .obj fields => "\x7b" ++ serializeFields fields ++ "\x7d"

/-- Serialize a comma-separated list of JSON array elements. -/
def serializeItems : List Json → String
  | [] => ""
  | [x] => Json.serialize x
  | x :: y :: rest => Json.serialize x ++ "," ++ serializeItems (y :: rest)

/-- Serialize a comma-separated list of JSON object members. -/
def serializeFields : List (String × Json) → String
  | [] => ""
  | [(k, v)] => "\"" ++ escapeString k ++ "\":" ++ Json.serialize v
  | (k, v) :: y :: rest =>
      "\"" ++ escapeString k ++ "\":" ++ Json.serialize v ++ "," ++ serializeFields (y :: rest)

end

/-- Raw bytes of an HTTP body: either well-formed JSON (which serializes back
to its textual form) or malformed text, on which `json.Unmarshal` errors.
The empty byte slice `[]byte{}` is `malformed ""`. -/
inductive Body where
  | malformed (text : String)
  | json (j : Json)
deriving Repr

/-- The textual (byte) content of a body, as `string(b)` renders it in Go. -/
def Body.text : Body → String
  | .malformed t => t
  | .json j => j.serialize

/-- Lookup in an association list modelling a Go `map[string]json.RawMessage`:
first binding for the key wins (the lists we build never have duplicate keys). -/
def lookupAssoc (m : List (String × Json)) (k : String) : Option Json :=
  match m with
  | [] => none
  | (k', v) :: rest => if k' = k then some v else lookupAssoc rest k

/-- Go map insert `m[k] = v`: replace the binding if the key is present,
otherwise add it. -/
def insertAssoc (m : List (String × Json)) (k : String) (v : Json) : List (String × Json) :=
  match m with
  | [] => [(k, v)]
  | (k', v') :: rest => if k' = k then (k, v) :: rest else (k', v') :: insertAssoc rest k v

/-- The association list has no duplicate keys (the invariant of every list we
use to model a Go map). -/
def NoDupKeys : List (String × Json) → Prop
  | [] => True
  | x :: rest => lookupAssoc rest x.1 = none ∧ NoDupKeys rest

/-- Boolean key comparison used to model Go `encoding/json` marshalling maps
with sorted keys. Its exact order is irrelevant to every claim; only that
sorting permutes the bindings. -/
def keyLt (a b : String) : Bool := compare a b == .lt

/-- Insert an element into a key-sorted association list, keeping the relative
order of the existing elements. -/
def insertSorted (x : String × Json) : List (String × Json) → List (String × Json)
  | [] => [x]
  | y :: ys => if keyLt x.1 y.1 then x :: y :: ys else y :: insertSorted x ys

/-- Sort an association list by key (insertion sort), modelling Go
`encoding/json` marshalling map keys in sorted order. -/
def sortByKey : List (String × Json) → List (String × Json)
  | [] => []
  | x :: xs => insertSorted x (sortByKey xs)

/-! ## Go `encoding/json` unmarshalling into the structs of provider.go

Go matches a JSON object key to a struct field by its name or tag, exact or
case-insensitive; keys are processed in order, so a later duplicate key
overwrites, and nested objects merge into the existing nested value. A JSON
`null` leaves the target unchanged; a type mismatch is an error. -/

/-- Lower-case an ASCII character (the field names involved are ASCII). -/
def lowerChar (c : Char) : Char :=
  if 65 ≤ c.toNat ∧ c.toNat ≤ 90 then Char.ofNat (c.toNat + 32) else c

/-- Lower-case a string character by character. -/
def lowerString (s : String) : String := String.mk (s.data.map lowerChar)

/-- Case-insensitive key match against a struct field name or json tag. -/
def matchesField (k name : String) : Bool := decide (lowerString k = lowerString name)

/-- Unmarshal a JSON value into a Go `string` field holding `old`. -/
def decString (old : String) : Json → Except String String
  | .str s => .ok s
  | .null => .ok old
  | _ => .error "json: cannot unmarshal value into Go value of type string"

/-- Unmarshal a JSON value into a Go `bool` field holding `old`. -/
def decBool (old : Bool) : Json → Except String Bool
  | .bool b => .ok b
  | .null => .ok old
  | _ => .error "json: cannot unmarshal value into Go value of type bool"

/-- Unmarshal a JSON value into a Go `int` field holding `old`. -/
def decInt (old : Int) : Json → Except String Int
  | .num n => .ok n
  | .null => .ok old
  | _ => .error "json: cannot unmarshal value into Go value of type int"

/-- Unmarshal a JSON value into a Go `map[string]json.RawMessage` holding
`old`: an object adds its members in order (Go map insert), null is a no-op. -/
def decRecords (old : List (String × Json)) : Json → Except String (List (String × Json))
  | .obj fields => .ok (fields.foldl (fun acc kv => insertAssoc acc kv.1 kv.2) old)
  | .null => .ok old
  | _ => .error "json: cannot unmarshal value into Go value of type map[string]json.RawMessage"

/-- The `Result` part of `getDataResponse` (provider.go lines 35-38):
`FQDN string` with json tag "fqdn", and `Records map[string]json.RawMessage`. -/
structure GetDataResult where
  fqdn : String := ""
  records : List (String × Json) := []
deriving Repr

/-- The `Answer` part of `getDataResponse` (provider.go lines 33-39). -/
structure GetDataAnswer where
  status : String := ""
  result : GetDataResult := {}
deriving Repr

/-- The struct `getDataResponse` of provider.go lines 31-40. -/
structure GetDataResponse where
  status : String := ""
  answer : GetDataAnswer := {}
deriving Repr

/-- Decode the members of the JSON object for `getDataResponse.Answer.Result`. -/
def decGetDataResultFields (acc : GetDataResult) : List (String × Json) → Except String GetDataResult
  | [] => .ok acc
  | (k, v) :: rest =>
    if matchesField k "fqdn" then
      match decString acc.fqdn v with
      | .error e => .error e
      | .ok s => decGetDataResultFields { acc with fqdn := s } rest
    else if matchesField k "Records" then
      match decRecords acc.records v with
      | .error e => .error e
      | .ok r => decGetDataResultFields { acc with records := r } rest
    else decGetDataResultFields acc rest

/-- Unmarshal a JSON value into `getDataResponse.Answer.Result`. -/
def decGetDataResult (acc : GetDataResult) : Json → Except String GetDataResult
  | .null => .ok acc
  | .obj fields => decGetDataResultFields acc fields
  | _ => .error "json: cannot unmarshal value into Go struct Result"

/-- Decode the members of the JSON object for `getDataResponse.Answer`. -/
def decGetDataAnswerFields (acc : GetDataAnswer) : List (String × Json) → Except String GetDataAnswer
  | [] => .ok acc
  | (k, v) :: rest =>
    if matchesField k "Status" then
      match decString acc.status v with
      | .error e => .error e
      | .ok s => decGetDataAnswerFields { acc with status := s } rest
    else if matchesField k "Result" then
      match decGetDataResult acc.result v with
      | .error e => .error e
      | .ok r => decGetDataAnswerFields { acc with result := r } rest
    else decGetDataAnswerFields acc rest

/-- Unmarshal a JSON value into `getDataResponse.Answer`. -/
def decGetDataAnswer (acc : GetDataAnswer) : Json → Except String GetDataAnswer
  | .null => .ok acc
  | .obj fields => decGetDataAnswerFields acc fields
  | _ => .error "json: cannot unmarshal value into Go struct Answer"

/-- Decode the members of the JSON object for `getDataResponse`. -/
def decGetDataResponseFields (acc : GetDataResponse) : List (String × Json) → Except String GetDataResponse
  | [] => .ok acc
  | (k, v) :: rest =>
    if matchesField k "Status" then
      match decString acc.status v with
      | .error e => .error e
      | .ok s => decGetDataResponseFields { acc with status := s } rest
    else if matchesField k "Answer" then
      match decGetDataAnswer acc.answer v with
      | .error e => .error e
      | .ok a => decGetDataResponseFields { acc with answer := a } rest
    else decGetDataResponseFields acc rest

/-- Unmarshal a JSON value into `getDataResponse`. -/
def decGetDataResponse (acc : GetDataResponse) : Json → Except String GetDataResponse
  | .null => .ok acc
  | .obj fields => decGetDataResponseFields acc fields
  | _ => .error "json: cannot unmarshal value into Go struct getDataResponse"

/-- Model of `json.Unmarshal(currentDataRaw, &currentDataStruct)` at
provider.go line 176: malformed bytes fail, JSON decodes into the zero
`getDataResponse`. -/
def unmarshalGetData : Body → Except String GetDataResponse
  | .malformed _ => .error "invalid character in JSON input"
  | .json j => decGetDataResponse {} j

/-- The anonymous `Answer` struct of the changeRecords response
(provider.go lines 214-217): `Status string`, `Result bool`. -/
structure ChangeAnswer where
  status : String := ""
  result : Bool := false
deriving Repr

/-- The anonymous changeRecords response struct of provider.go lines 212-218. -/
structure ChangeResponse where
  status : String := ""
  answer : ChangeAnswer := {}
deriving Repr

/-- Decode the members of the JSON object for the changeRecords `Answer`. -/
def decChangeAnswerFields (acc : ChangeAnswer) : List (String × Json) → Except String ChangeAnswer
  | [] => .ok acc
  | (k, v) :: rest =>
    if matchesField k "Status" then
      match decString acc.status v with
      | .error e => .error e
      | .ok s => decChangeAnswerFields { acc with status := s } rest
    else if matchesField k "Result" then
      match decBool acc.result v with
      | .error e => .error e
      | .ok b => decChangeAnswerFields { acc with result := b } rest
    else decChangeAnswerFields acc rest

/-- Unmarshal a JSON value into the changeRecords `Answer`. -/
def decChangeAnswer (acc : ChangeAnswer) : Json → Except String ChangeAnswer
  | .null => .ok acc
  | .obj fields => decChangeAnswerFields acc fields
  | _ => .error "json: cannot unmarshal value into Go struct Answer"

/-- Decode the members of the JSON object for the changeRecords response. -/
def decChangeResponseFields (acc : ChangeResponse) : List (String × Json) → Except String ChangeResponse
  | [] => .ok acc
  | (k, v) :: rest =>
    if matchesField k "Status" then
      match decString acc.status v with
      | .error e => .error e
      | .ok s => decChangeResponseFields { acc with status := s } rest
    else if matchesField k "Answer" then
      match decChangeAnswer acc.answer v with
      | .error e => .error e
      | .ok a => decChangeResponseFields { acc with answer := a } rest
    else decChangeResponseFields acc rest

/-- Unmarshal a JSON value into the changeRecords response struct. -/
def decChangeResponse (acc : ChangeResponse) : Json → Except String ChangeResponse
  | .null => .ok acc
  | .obj fields => decChangeResponseFields acc fields
  | _ => .error "json: cannot unmarshal value into Go struct"

/-- Model of `json.Unmarshal(changeRecordsResponseRaw, &result)` at
provider.go line 219. -/
def unmarshalChange : Body → Except String ChangeResponse
  | .malformed _ => .error "invalid character in JSON input"
  | .json j => decChangeResponse {} j

/-- The `extraSettings` struct of `New` (provider.go lines 46-52), with json
tags "login", "password", "domain", "priority". -/
structure ExtraSettings where
  login : String := ""
  password : String := ""
  domain : String := ""
  priority : Int := 0
deriving Repr

/-- Decode the members of the JSON object for `extraSettings`. -/
def decExtraSettingsFields (acc : ExtraSettings) : List (String × Json) → Except String ExtraSettings
  | [] => .ok acc
  | (k, v) :: rest =>
    if matchesField k "login" then
      match decString acc.login v with
      | .error e => .error e
      | .ok s => decExtraSettingsFields { acc with login := s } rest
    else if matchesField k "password" then
      match decString acc.password v with
      | .error e => .error e
      | .ok s => decExtraSettingsFields { acc with password := s } rest
    else if matchesField k "domain" then
      match decString acc.domain v with
      | .error e => .error e
      | .ok s => decExtraSettingsFields { acc with domain := s } rest
    else if matchesField k "priority" then
      match decInt acc.priority v with
      | .error e => .error e
      | .ok n => decExtraSettingsFields { acc with priority := n } rest
    else decExtraSettingsFields acc rest

/-- Unmarshal a JSON value into `extraSettings`. -/
def decExtraSettings (acc : ExtraSettings) : Json → Except String ExtraSettings
  | .null => .ok acc
  | .obj fields => decExtraSettingsFields acc fields
  | _ => .error "json: cannot unmarshal value into Go struct extraSettings"

/-- Model of `json.Unmarshal(data, &extraSettings)` at provider.go line 54. -/
def unmarshalExtraSettings : Body → Except String ExtraSettings
  | .malformed _ => .error "invalid character in JSON input"
  | .json j => decExtraSettings {} j

/-! ## The provider and its operations -/

/-- Model of `netip.Addr`: the zero value `netip.Addr{}` (an invalid address),
an IPv4 address, or an IPv6 address carried by its canonical string form. -/
inductive Addr where
  | zero
  | v4 (a b c d : Nat)
  | v6 (canonical : String)
deriving Repr, DecidableEq

/-- Model of `netip.Addr.String()`: the canonical string form; the zero
address renders as "invalid IP". -/
def Addr.string : Addr → String
  | .zero => "invalid IP"
  | .v4 a b c d => toString a ++ "." ++ toString b ++ "." ++ toString c ++ "." ++ toString d
  | .v6 canonical => canonical

/-- The `Provider` struct of provider.go lines 20-29. -/
structure Provider where
  domain : String
  target : String
  owner : String
  login : String
  password : String
  priority : Int
deriving Repr, DecidableEq

/-- Model of `errors.ErrDomainNotValid` from the provider errors package. -/
def errDomainNotValid : String := "domain is not valid"

/-- The constructor `New` of provider.go lines 42-74. The repository function
`utils.CheckDomain` lives outside the sources under study, so `New` is
parametrized by the validator `checkDomain` (returning `some err` on an
invalid domain); every theorem about `New` holds for an arbitrary validator.
Go returns `(p *Provider, err error)` with `p = nil` exactly on error, which
`Except` captures. -/
def New (checkDomain : String → Option String) (data : Body) (domain owner : String) :
    Except String Provider :=
  match unmarshalExtraSettings data with
  | .error e => .error e
  | .ok extra =>
    match checkDomain extra.domain with
    | some e => .error (errDomainNotValid ++ ": " ++ e)
    | none =>
      .ok { domain := domain
            target := extra.domain
            priority := extra.priority
            owner := owner
            login := extra.login
            password := extra.password }

/-- An outgoing HTTP request as `apiCall` builds it (provider.go lines
118-137): URL pieces, query parameters in the order they are set, method,
body, and the two headers the code sets. -/
structure Request where
  scheme : String
  host : String
  path : String
  query : List (String × String)
  method : String
  body : Option String
  userAgent : String
  accept : String
deriving Repr, DecidableEq

/-- Modelled from the spec: `headers.SetUserAgent` (outside the sources under
study) sets a fixed user-agent header on the request. -/
def setUserAgent (r : Request) : Request := { r with userAgent := "DDNS-Updater" }

/-- Modelled from the spec: `headers.SetAccept` (outside the sources under
study) sets the Accept header to the given value. -/
def setAccept (r : Request) (value : String) : Request := { r with accept := value }

/-- The request constructed by `apiCall` (provider.go lines 118-137): an HTTPS
GET to api.beget.com with login, passwd, input_format, output_format and
input_data as query parameters, no body, user-agent and Accept headers set.
Request construction (`http.NewRequestWithContext`, line 132) cannot fail on
these inputs, so it is modelled as total. -/
def buildRequest (p : Provider) (URLEndpoint : String) (inputJSON : String) : Request :=
  setAccept
    (setUserAgent
      { scheme := "https"
        host := "api.beget.com"
        path := URLEndpoint
        query := [("login", p.login), ("passwd", p.password), ("input_format", "json"),
                  ("output_format", "json"), ("input_data", inputJSON)]
        method := "GET"
        body := none
        userAgent := ""
        accept := "" })
    "application/json"

/-- An HTTP response: status code plus the result of reading the body
(`io.ReadAll` at provider.go line 145 can itself fail). -/
structure HTTPResponse where
  statusCode : Nat
  body : Except String Body

/-- The caller-supplied HTTP client, as a function from the request to either
a transport error (`client.Do` failing: network failure, cancellation) or a
response. -/
def Transport : Type := Request → Except String HTTPResponse

/-- The method `apiCall` of provider.go lines 117-155, instrumented to also
return the request it issued (the recording-transport double). It returns the
pair `([]byte, error)` of the source: on transport or read error the empty
byte slice plus the error; on a non-200 status the body is returned alongside
the error; on a 200 status the body with no error. -/
def apiCall (p : Provider) (doRequest : Transport) (URLEndpoint : String) (inputJSON : String) :
    (Body × Option String) × Request :=
  let request := buildRequest p URLEndpoint inputJSON
  match doRequest request with
  | .error e =>
      ((.malformed "", some (URLEndpoint ++ ": Failed performing HTTP request: " ++ e)), request)
  | .ok response =>
    match response.body with
    | .error e =>
        ((.malformed "", some (URLEndpoint ++ ": Failed reading response body: " ++ e)), request)
    | .ok b =>
      if response.statusCode ≠ 200 then
        ((b, some (URLEndpoint ++ ": HTTP status is " ++ toString response.statusCode)), request)
      else
        ((b, none), request)

/-- Modelled from the spec: `utils.ToSingleLine` (outside the sources under
study) renders a string on a single line, newlines and control characters
collapsed (each replaced by a space). -/
def toSingleLine (s : String) : String :=
  String.mk (s.data.map (fun c => if c.toNat < 32 then ' ' else c))

/-- The getData request payload `json.Marshal(map[string]string{"fqdn": p.target})`
of provider.go line 165; marshalling a map of strings cannot fail, so the
error branch at line 166 is unreachable and the model is total. -/
def getDataPayload (p : Provider) : String :=
  (Json.obj [("fqdn", .str p.target)]).serialize

/-- The fetch request issued by `Update` (provider.go line 170). -/
def fetchRequest (p : Provider) : Request :=
  buildRequest p "api/dns/getData" (getDataPayload p)

/-- The new A entry `json.Marshal([]struct{Priority int; Value string}{{...}})`
of provider.go lines 194-198: a single-element array with the configured
priority and the IP rendered by `ip.String()`. Marshalling cannot fail, so
the error branch at line 199 is unreachable. -/
def newAEntry (p : Provider) (ip : Addr) : Json :=
  .arr [.obj [("priority", .num p.priority), ("value", .str ip.string)]]

/-- The record mapping sent in the write request:
`inputData.Records["A"] = json.RawMessage(newAEntryJSON)` at provider.go
line 202, applied to the fetched records. -/
def mergedRecords (p : Provider) (ip : Addr) (records : List (String × Json)) :
    List (String × Json) :=
  insertAssoc records "A" (newAEntry p ip)

/-- The write request payload `json.Marshal(inputData)` of provider.go lines
187-207: the struct with json tags "fqdn" and "records"; the map is emitted
with sorted keys. Marshalling cannot fail here, so the error branch at line
205 is unreachable. -/
def changePayload (p : Provider) (ip : Addr) (records : List (String × Json)) : String :=
  (Json.obj [("fqdn", .str p.target),
             ("records", .obj (sortByKey (mergedRecords p ip records)))]).serialize

/-- The write request issued by `Update` (provider.go line 210). -/
def changeRequest (p : Provider) (ip : Addr) (records : List (String × Json)) : Request :=
  buildRequest p "/api/dns/changeRecords" (changePayload p ip records)

/-- Part 2 of `Update` (provider.go lines 185-227): build the write payload
from the fetched records, call changeRecords, unmarshal and check its
response. Returns the `(netip.Addr, error)` pair plus the issued request.
The apiCall error `call.1.2` is never read, mirroring the source: line 210
assigns `err` and line 219 overwrites it without any check. -/
def writePhase (p : Provider) (doRequest : Transport) (ip : Addr)
    (records : List (String × Json)) : (Addr × Option String) × Request :=
  let call := apiCall p doRequest "/api/dns/changeRecords" (changePayload p ip records)
  let changeRecordsResponseRaw := call.1.1
  let request := call.2
  match unmarshalChange changeRecordsResponseRaw with
  | .error e => ((.zero, some ("Failed unmarshalling changeRecords response: " ++ e)), request)
  | .ok result =>
    if result.status ≠ "success" ∨ result.answer.status ≠ "success" then
      ((.zero, some ("changeRequest response doesn\x27t indicate success: "
                      ++ toSingleLine changeRecordsResponseRaw.text)), request)
    else
      ((ip, none), request)

/-- The method `Update` of provider.go lines 157-228, instrumented to also
return the list of requests it issued, in order. -/
def Update (p : Provider) (doRequest : Transport) (ip : Addr) :
    (Addr × Option String) × List Request :=
  let call := apiCall p doRequest "api/dns/getData" (getDataPayload p)
  let currentDataRaw := call.1.1
  let request := call.2
  match call.1.2 with
  | some e => ((.zero, some ("Calling getData failed: " ++ e)), [request])
  | none =>
    match unmarshalGetData currentDataRaw with
    | .error e =>
        ((.zero, some ("Failed unmarshalling getData response: " ++ e)), [request])
    | .ok currentDataStruct =>
      if currentDataStruct.status ≠ "success" ∨ currentDataStruct.answer.status ≠ "success"
          ∨ currentDataStruct.answer.result.fqdn ≠ p.target then
        ((.zero, some "getData response doesn\x27t indicate success"), [request])
      else
        let write := writePhase p doRequest ip currentDataStruct.answer.result.records
        (write.1, [request, write.2])

/-! ## Concrete data exercising the model

Scenario data used by the closed instantiations below, following the worked
example of the specification (target example.com, priority 10, a TXT record
to be preserved). -/

/-- A provider configured as in the worked example of the specification. -/
def exampleProvider : Provider :=
  { domain := "example.com", target := "example.com", owner := "@",
    login := "user", password := "hunter2", priority := 10 }

/-- A successful getData response body whose record set holds one TXT record. -/
def fetchOkBody : Body := .json (.obj [
  ("status", .str "success"),
  ("answer", .obj [
    ("status", .str "success"),
    ("result", .obj [
      ("fqdn", .str "example.com"),
      ("records", .obj [("TXT", .arr [.str "v=spf1"])])])])])

/-- The decoded form of `fetchOkBody`. -/
def gdOk : GetDataResponse :=
  { status := "success",
    answer := { status := "success",
                result := { fqdn := "example.com",
                            records := [("TXT", .arr [.str "v=spf1"])] } } }

/-- A getData response body whose FQDN differs from the configured target. -/
def fetchMismatchBody : Body := .json (.obj [
  ("status", .str "success"),
  ("answer", .obj [
    ("status", .str "success"),
    ("result", .obj [
      ("fqdn", .str "other.com"),
      ("records", .obj [("TXT", .arr [.str "v=spf1"])])])])])

/-- The decoded form of `fetchMismatchBody`. -/
def gdMismatch : GetDataResponse :=
  { status := "success",
    answer := { status := "success",
                result := { fqdn := "other.com",
                            records := [("TXT", .arr [.str "v=spf1"])] } } }

/-- A successful changeRecords response body. -/
def writeOkBody : Body := .json (.obj [
  ("status", .str "success"),
  ("answer", .obj [("status", .str "success"), ("result", .bool true)])])

/-- The decoded form of `writeOkBody`. -/
def chOk : ChangeResponse :=
  { status := "success", answer := { status := "success", result := true } }

/-- A changeRecords response body that does not indicate success. -/
def writeFailBody : Body := .json (.obj [
  ("status", .str "error"), ("error_text", .str "access denied")])

/-- The decoded form of `writeFailBody`. -/
def chFail : ChangeResponse := { status := "error", answer := {} }

/-- A transport whose getData response reports a mismatched FQDN. -/
def mismatchTransport : Transport := fun r =>
  if r.path = "api/dns/getData" then .ok ⟨200, .ok fetchMismatchBody⟩
  else .error "unexpected request"

/-- A transport on which both phases succeed. -/
def happyTransport : Transport := fun r =>
  if r.path = "api/dns/getData" then .ok ⟨200, .ok fetchOkBody⟩
  else if r.path = "/api/dns/changeRecords" then .ok ⟨200, .ok writeOkBody⟩
  else .error "unexpected request"

/-- A transport whose write call fails at the HTTP level (status 500) while
its body still reads as a success envelope. -/
def non200WriteTransport : Transport := fun r =>
  if r.path = "api/dns/getData" then .ok ⟨200, .ok fetchOkBody⟩
  else if r.path = "/api/dns/changeRecords" then .ok ⟨500, .ok writeOkBody⟩
  else .error "unexpected request"

/-- A transport whose write response decodes but does not indicate success. -/
def rejectedWriteTransport : Transport := fun r =>
  if r.path = "api/dns/getData" then .ok ⟨200, .ok fetchOkBody⟩
  else if r.path = "/api/dns/changeRecords" then .ok ⟨200, .ok writeFailBody⟩
  else .error "unexpected request"

/-- A transport answering every request with HTTP status 418 and a non-JSON
body. -/
def teapotTransport : Transport := fun _ =>
  .ok ⟨418, .ok (.malformed "I am a teapot")⟩

/-- A configuration blob with empty login and password and a valid domain. -/
def emptyCredsBody : Body := .json (.obj [
  ("login", .str ""), ("password", .str ""),
  ("domain", .str "example.com"), ("priority", .num 10)])

/-- The decoded form of `emptyCredsBody`. -/
def extraEmptyCreds : ExtraSettings :=
  { login := "", password := "", domain := "example.com", priority := 10 }

/-- A configuration blob with an (assumedly invalid) domain string. -/
def badDomainBody : Body := .json (.obj [
  ("login", .str "user"), ("password", .str "hunter2"),
  ("domain", .str "not..a..domain"), ("priority", .num 10)])

/-- The decoded form of `badDomainBody`. -/
def extraBadDomain : ExtraSettings :=
  { login := "user", password := "hunter2", domain := "not..a..domain", priority := 10 }

/-- A domain validator verdict rejecting every domain, standing in for
`utils.CheckDomain` rejecting an invalid domain string. -/
def rejectDomain : String → Option String := fun d => some ("domain " ++ d ++ " is malformed")

/-- A domain validator verdict accepting every domain, standing in for
`utils.CheckDomain` accepting a well-formed domain string. -/
def acceptDomain : String → Option String := fun _ => none

/-! ## Association-map lemmas -/

/-- Inserting a key makes it present with the inserted value. -/
theorem lookupAssoc_insertAssoc_self (m : List (String × Json)) (k : String) (v : Json) :
    lookupAssoc (insertAssoc m k v) k = some v := by
  induction m with
  | nil => simp [insertAssoc, lookupAssoc]
  | cons kv rest ih =>
    obtain ⟨k', v'⟩ := kv
    by_cases h : k' = k
    · subst h; simp [insertAssoc, lookupAssoc]
    · simp [insertAssoc, lookupAssoc, h, ih]

/-- Inserting a key leaves every other key unchanged. -/
theorem lookupAssoc_insertAssoc_ne (m : List (String × Json)) (k k' : String) (v : Json)
    (h : k' ≠ k) : lookupAssoc (insertAssoc m k v) k' = lookupAssoc m k' := by
  induction m with
  | nil => simp [insertAssoc, lookupAssoc, Ne.symm h]
  | cons kv rest ih =>
    obtain ⟨k₀, v₀⟩ := kv
    by_cases h₀ : k₀ = k
    · subst h₀; simp [insertAssoc, lookupAssoc, Ne.symm h]
    · simp [insertAssoc, lookupAssoc, h₀, ih]

/-- Go-map insert preserves the no-duplicate-keys invariant. -/
theorem noDupKeys_insertAssoc (m : List (String × Json)) (k : String) (v : Json)
    (h : NoDupKeys m) : NoDupKeys (insertAssoc m k v) := by
  induction m with
  | nil => simp [insertAssoc, NoDupKeys, lookupAssoc]
  | cons kv rest ih =>
    obtain ⟨k₀, v₀⟩ := kv
    obtain ⟨hnone, hrest⟩ := h
    by_cases h₀ : k₀ = k
    · subst h₀
      simp only [insertAssoc, if_pos rfl]
      exact ⟨hnone, hrest⟩
    · simp only [insertAssoc, if_neg h₀]
      refine And.intro ?_ (ih hrest)
      show lookupAssoc (insertAssoc rest k v) k₀ = none
      rw [lookupAssoc_insertAssoc_ne rest k k₀ v h₀]
      exact hnone

/-- Sorted insertion never affects other keys. -/
theorem lookupAssoc_insertSorted_ne (m : List (String × Json)) (x : String × Json) (k : String)
    (h : x.1 ≠ k) : lookupAssoc (insertSorted x m) k = lookupAssoc m k := by
  induction m with
  | nil => simp [insertSorted, lookupAssoc, h]
  | cons y ys ih =>
    by_cases hlt : keyLt x.1 y.1
    · simp [insertSorted, hlt, lookupAssoc, h]
    · by_cases hy : y.1 = k
      · subst hy; simp [insertSorted, hlt, lookupAssoc]
      · simp [insertSorted, hlt, lookupAssoc, hy, ih]

/-- Sorted insertion of a key absent from the list makes it present with the
inserted value. -/
theorem lookupAssoc_insertSorted_self (m : List (String × Json)) (x : String × Json)
    (h : lookupAssoc m x.1 = none) : lookupAssoc (insertSorted x m) x.1 = some x.2 := by
  induction m with
  | nil => simp [insertSorted, lookupAssoc]
  | cons y ys ih =>
    by_cases hy : y.1 = x.1
    · simp [lookupAssoc, hy] at h
    · have htail : lookupAssoc ys x.1 = none := by simpa [lookupAssoc, hy] using h
      by_cases hlt : keyLt x.1 y.1
      · simp [insertSorted, hlt, lookupAssoc]
      · simp [insertSorted, hlt, lookupAssoc, hy, ih htail]

/-- On duplicate-free association lists, key-sorting preserves every lookup:
the mapping Go serializes (sorted keys) is the mapping built in memory. -/
theorem lookupAssoc_sortByKey (m : List (String × Json)) (h : NoDupKeys m) :
    ∀ k, lookupAssoc (sortByKey m) k = lookupAssoc m k := by
  induction m with
  | nil => intro k; rfl
  | cons x xs ih =>
    obtain ⟨hnone, hrest⟩ := h
    intro k
    by_cases hk : x.1 = k
    · subst hk
      rw [show sortByKey (x :: xs) = insertSorted x (sortByKey xs) from rfl]
      rw [lookupAssoc_insertSorted_self (sortByKey xs) x (by rw [ih hrest]; exact hnone)]
      simp [lookupAssoc]
    · rw [show sortByKey (x :: xs) = insertSorted x (sortByKey xs) from rfl]
      rw [lookupAssoc_insertSorted_ne (sortByKey xs) x k hk, ih hrest]
      simp [lookupAssoc, hk]

/-! ## The decoded record map has no duplicate keys -/

/-- Folding Go-map inserts preserves the no-duplicate-keys invariant. -/
theorem noDupKeys_foldl_insertAssoc (fields : List (String × Json)) :
    ∀ m, NoDupKeys m →
      NoDupKeys (fields.foldl (fun acc kv => insertAssoc acc kv.1 kv.2) m) := by
  induction fields with
  | nil => intro m h; exact h
  | cons kv rest ih => intro m h; exact ih _ (noDupKeys_insertAssoc m kv.1 kv.2 h)

/-- Unmarshalling into a record map preserves the no-duplicate-keys invariant. -/
theorem decRecords_noDupKeys (old : List (String × Json)) (j : Json)
    (r : List (String × Json)) (hold : NoDupKeys old) (h : decRecords old j = .ok r) :
    NoDupKeys r := by
  cases j with
  | null => simp [decRecords] at h; exact h ▸ hold
  | obj fields =>
    simp [decRecords] at h
    exact h ▸ noDupKeys_foldl_insertAssoc fields old hold
  | bool b => simp [decRecords] at h
  | num n => simp [decRecords] at h
  | str s => simp [decRecords] at h
  | arr elems => simp [decRecords] at h

/-- Decoding Result members preserves the record-map invariant. -/
theorem decGetDataResultFields_noDupKeys (fields : List (String × Json)) :
    ∀ acc r, NoDupKeys acc.records → decGetDataResultFields acc fields = .ok r →
      NoDupKeys r.records := by
  induction fields with
  | nil =>
    intro acc r h hr
    simp [decGetDataResultFields] at hr
    exact hr ▸ h
  | cons kv rest ih =>
    intro acc r h hr
    obtain ⟨k, v⟩ := kv
    simp only [decGetDataResultFields] at hr
    split at hr
    · cases hds : decString acc.fqdn v with
      | error e => rw [hds] at hr; simp at hr
      | ok s => simp only [hds] at hr; refine ih _ r ?_ hr; exact h
    · split at hr
      · cases hds : decRecords acc.records v with
        | error e => rw [hds] at hr; simp at hr
        | ok rcd =>
          simp only [hds] at hr
          exact ih _ _ (decRecords_noDupKeys acc.records v rcd h hds) hr
      · exact ih _ _ h hr

/-- Decoding a Result value preserves the record-map invariant. -/
theorem decGetDataResult_noDupKeys (acc : GetDataResult) (j : Json) (r : GetDataResult)
    (h : NoDupKeys acc.records) (hr : decGetDataResult acc j = .ok r) :
    NoDupKeys r.records := by
  cases j with
  | null => simp [decGetDataResult] at hr; exact hr ▸ h
  | obj fields => exact decGetDataResultFields_noDupKeys fields acc r h hr
  | bool b => simp [decGetDataResult] at hr
  | num n => simp [decGetDataResult] at hr
  | str s => simp [decGetDataResult] at hr
  | arr elems => simp [decGetDataResult] at hr

/-- Decoding Answer members preserves the record-map invariant. -/
theorem decGetDataAnswerFields_noDupKeys (fields : List (String × Json)) :
    ∀ acc r, NoDupKeys acc.result.records → decGetDataAnswerFields acc fields = .ok r →
      NoDupKeys r.result.records := by
  induction fields with
  | nil =>
    intro acc r h hr
    simp [decGetDataAnswerFields] at hr
    exact hr ▸ h
  | cons kv rest ih =>
    intro acc r h hr
    obtain ⟨k, v⟩ := kv
    simp only [decGetDataAnswerFields] at hr
    split at hr
    · cases hds : decString acc.status v with
      | error e => rw [hds] at hr; simp at hr
      | ok s => simp only [hds] at hr; refine ih _ r ?_ hr; exact h
    · split at hr
      · cases hds : decGetDataResult acc.result v with
        | error e => rw [hds] at hr; simp at hr
        | ok res =>
          simp only [hds] at hr
          exact ih _ _ (decGetDataResult_noDupKeys acc.result v res h hds) hr
      · exact ih _ _ h hr

/-- Decoding an Answer value preserves the record-map invariant. -/
theorem decGetDataAnswer_noDupKeys (acc : GetDataAnswer) (j : Json) (r : GetDataAnswer)
    (h : NoDupKeys acc.result.records) (hr : decGetDataAnswer acc j = .ok r) :
    NoDupKeys r.result.records := by
  cases j with
  | null => simp [decGetDataAnswer] at hr; exact hr ▸ h
  | obj fields => exact decGetDataAnswerFields_noDupKeys fields acc r h hr
  | bool b => simp [decGetDataAnswer] at hr
  | num n => simp [decGetDataAnswer] at hr
  | str s => simp [decGetDataAnswer] at hr
  | arr elems => simp [decGetDataAnswer] at hr

/-- Decoding getDataResponse members preserves the record-map invariant. -/
theorem decGetDataResponseFields_noDupKeys (fields : List (String × Json)) :
    ∀ acc r, NoDupKeys acc.answer.result.records →
      decGetDataResponseFields acc fields = .ok r → NoDupKeys r.answer.result.records := by
  induction fields with
  | nil =>
    intro acc r h hr
    simp [decGetDataResponseFields] at hr
    exact hr ▸ h
  | cons kv rest ih =>
    intro acc r h hr
    obtain ⟨k, v⟩ := kv
    simp only [decGetDataResponseFields] at hr
    split at hr
    · cases hds : decString acc.status v with
      | error e => rw [hds] at hr; simp at hr
      | ok s => simp only [hds] at hr; refine ih _ r ?_ hr; exact h
    · split at hr
      · cases hds : decGetDataAnswer acc.answer v with
        | error e => rw [hds] at hr; simp at hr
        | ok a =>
          simp only [hds] at hr
          exact ih _ _ (decGetDataAnswer_noDupKeys acc.answer v a h hds) hr
      · exact ih _ _ h hr

/-- The records of any successfully unmarshalled getData response form a
duplicate-free map. -/
theorem unmarshalGetData_noDupKeys (b : Body) (s : GetDataResponse)
    (h : unmarshalGetData b = .ok s) : NoDupKeys s.answer.result.records := by
  cases b with
  | malformed t => simp [unmarshalGetData] at h
  | json j =>
    cases j with
    | null =>
      simp [unmarshalGetData, decGetDataResponse] at h
      exact h ▸ trivial
    | obj fields =>
      exact decGetDataResponseFields_noDupKeys fields {} s trivial h
    | bool b => simp [unmarshalGetData, decGetDataResponse] at h
    | num n => simp [unmarshalGetData, decGetDataResponse] at h
    | str s => simp [unmarshalGetData, decGetDataResponse] at h
    | arr elems => simp [unmarshalGetData, decGetDataResponse] at h

/-! ## Operational lemmas about apiCall, writePhase and Update -/

/-- apiCall always reports the request it built, on every exit path. -/
theorem apiCall_request (p : Provider) (d : Transport) (endpoint payload : String) :
    (apiCall p d endpoint payload).2 = buildRequest p endpoint payload := by
  unfold apiCall
  cases hd : d (buildRequest p endpoint payload) with
  | error e => simp [hd]
  | ok resp =>
    cases hb : resp.body with
    | error e => simp [hd, hb]
    | ok b =>
      simp only [hd, hb]
      split <;> rfl

/-- On a received response with a readable body, apiCall passes the body
through, on the 200 path and the non-200 path alike. -/
theorem apiCall_body (p : Provider) (d : Transport) (endpoint payload : String)
    (resp : HTTPResponse) (b : Body)
    (hresp : d (buildRequest p endpoint payload) = .ok resp)
    (hbody : resp.body = .ok b) :
    (apiCall p d endpoint payload).1.1 = b := by
  unfold apiCall
  simp only [hresp, hbody]
  split <;> rfl

/-- apiCall on a 200 response returns the body with no error. -/
theorem apiCall_ok (p : Provider) (d : Transport) (endpoint payload : String)
    (resp : HTTPResponse) (b : Body)
    (hresp : d (buildRequest p endpoint payload) = .ok resp)
    (hbody : resp.body = .ok b) (h200 : resp.statusCode = 200) :
    apiCall p d endpoint payload = ((b, none), buildRequest p endpoint payload) := by
  unfold apiCall
  simp [hresp, hbody, h200]

/-- apiCall on a non-200 response returns the body alongside the status error. -/
theorem apiCall_non200 (p : Provider) (d : Transport) (endpoint payload : String)
    (resp : HTTPResponse) (b : Body)
    (hresp : d (buildRequest p endpoint payload) = .ok resp)
    (hbody : resp.body = .ok b) (hcode : resp.statusCode ≠ 200) :
    apiCall p d endpoint payload =
      ((b, some (endpoint ++ ": HTTP status is " ++ toString resp.statusCode)),
        buildRequest p endpoint payload) := by
  unfold apiCall
  simp [hresp, hbody, hcode]

/-- The write phase always reports the changeRecords request it issued. -/
theorem writePhase_request (p : Provider) (d : Transport) (ip : Addr)
    (records : List (String × Json)) :
    (writePhase p d ip records).2 = changeRequest p ip records := by
  simp only [writePhase]
  split
  · exact apiCall_request p d "/api/dns/changeRecords" (changePayload p ip records)
  · split <;> exact apiCall_request p d "/api/dns/changeRecords" (changePayload p ip records)

/-- If the write response is received, its body reads, decodes, and carries
both success statuses, the write phase returns the input IP with no error;
the HTTP status code of the write response is irrelevant, since the source
discards the write call error. -/
theorem writePhase_success (p : Provider) (d : Transport) (ip : Addr)
    (records : List (String × Json)) (resp : HTTPResponse) (wbody : Body)
    (wres : ChangeResponse)
    (hresp : d (changeRequest p ip records) = .ok resp)
    (hbody : resp.body = .ok wbody)
    (hdec : unmarshalChange wbody = .ok wres)
    (hs : wres.status = "success") (has : wres.answer.status = "success") :
    (writePhase p d ip records).1 = (ip, none) := by
  simp only [writePhase]
  rw [apiCall_body p d "/api/dns/changeRecords" (changePayload p ip records) resp wbody
    hresp hbody]
  simp [hdec, hs, has]

/-- If the write response is received, its body reads, decodes, but lacks a
success status, the write phase fails with the single-line diagnostic error. -/
theorem writePhase_rejected (p : Provider) (d : Transport) (ip : Addr)
    (records : List (String × Json)) (resp : HTTPResponse) (wbody : Body)
    (wres : ChangeResponse)
    (hresp : d (changeRequest p ip records) = .ok resp)
    (hbody : resp.body = .ok wbody)
    (hdec : unmarshalChange wbody = .ok wres)
    (hfail : wres.status ≠ "success" ∨ wres.answer.status ≠ "success") :
    (writePhase p d ip records).1 =
      (.zero, some ("changeRequest response doesn\x27t indicate success: "
                     ++ toSingleLine wbody.text)) := by
  simp only [writePhase]
  rw [apiCall_body p d "/api/dns/changeRecords" (changePayload p ip records) resp wbody
    hresp hbody]
  simp only [hdec]
  rw [if_pos hfail]

/-- When the fetch succeeds with a 200 response whose decoded envelope passes
all three checks, Update is the write phase on the fetched records, and the
issued requests are the fetch request followed by the write request. -/
theorem update_fetch_success (p : Provider) (d : Transport) (ip : Addr)
    (resp : HTTPResponse) (fbody : Body) (cur : GetDataResponse)
    (hresp : d (fetchRequest p) = .ok resp)
    (hbody : resp.body = .ok fbody)
    (h200 : resp.statusCode = 200)
    (hdec : unmarshalGetData fbody = .ok cur)
    (hs : cur.status = "success") (has : cur.answer.status = "success")
    (hfq : cur.answer.result.fqdn = p.target) :
    Update p d ip = ((writePhase p d ip cur.answer.result.records).1,
      [fetchRequest p, (writePhase p d ip cur.answer.result.records).2]) := by
  simp only [Update]
  rw [apiCall_ok p d "api/dns/getData" (getDataPayload p) resp fbody hresp hbody h200]
  simp [hdec, hs, has, hfq, fetchRequest]

/-- The single-line rendering contains no newline character. -/
theorem newline_not_mem_toSingleLine (s : String) : '\n' ∉ (toSingleLine s).data := by
  intro h
  simp only [toSingleLine, List.mem_map] at h
  obtain ⟨a, _, hfa⟩ := h
  by_cases hc : a.toNat < 32
  · rw [if_pos hc] at hfa
    exact absurd hfa (by decide)
  · rw [if_neg hc] at hfa
    subst hfa
    exact hc (by decide)

/-! ## The claims -/

/-- C1: for every Update invocation, if the fetch response's outer status is
not "success", or its nested answer status is not "success", or its returned
FQDN differs (case-sensitive exact string equality) from the configured
target, then Update returns an error and issues no changeRecords request.
This holds for any HTTP status code of the fetch response. -/
theorem fetch_validation_failure_returns_error_and_no_write (p : Provider) (d : Transport)
    (ip : Addr) (resp : HTTPResponse) (fbody : Body) (cur : GetDataResponse)
    (hresp : d (fetchRequest p) = .ok resp)
    (hbody : resp.body = .ok fbody)
    (hdec : unmarshalGetData fbody = .ok cur)
    (hfail : cur.status ≠ "success" ∨ cur.answer.status ≠ "success"
              ∨ cur.answer.result.fqdn ≠ p.target) :
    (Update p d ip).1.2.isSome = true ∧
    ∀ r ∈ (Update p d ip).2, r.path ≠ "/api/dns/changeRecords" := by
  by_cases h200 : resp.statusCode = 200
  · have hU : Update p d ip =
        ((Addr.zero, some "getData response doesn\x27t indicate success"), [fetchRequest p]) := by
      simp only [Update]
      rw [apiCall_ok p d "api/dns/getData" (getDataPayload p) resp fbody hresp hbody h200]
      simp only [hdec]
      rw [if_pos hfail]
      simp [fetchRequest]
    rw [hU]
    refine ⟨rfl, ?_⟩
    intro r hr
    rw [List.mem_singleton] at hr
    subst hr
    exact fun hcontra =>
      absurd (show "api/dns/getData" = "/api/dns/changeRecords" from hcontra) (by decide)
  · have hU : Update p d ip =
        ((Addr.zero, some ("Calling getData failed: "
            ++ ("api/dns/getData" ++ ": HTTP status is " ++ toString resp.statusCode))),
          [fetchRequest p]) := by
      simp only [Update]
      rw [apiCall_non200 p d "api/dns/getData" (getDataPayload p) resp fbody hresp hbody h200]
      simp [fetchRequest]
    rw [hU]
    refine ⟨rfl, ?_⟩
    intro r hr
    rw [List.mem_singleton] at hr
    subst hr
    exact fun hcontra =>
      absurd (show "api/dns/getData" = "/api/dns/changeRecords" from hcontra) (by decide)

/-- Witness for C1: a getData response whose FQDN ("other.com") differs from
the configured target ("example.com") makes Update fail with no write issued. -/
theorem fetch_validation_failure_witness :
    (Update exampleProvider mismatchTransport (Addr.v4 1 2 3 4)).1.2.isSome = true ∧
    ∀ r ∈ (Update exampleProvider mismatchTransport (Addr.v4 1 2 3 4)).2,
      r.path ≠ "/api/dns/changeRecords" :=
  fetch_validation_failure_returns_error_and_no_write exampleProvider mismatchTransport
    (Addr.v4 1 2 3 4) ⟨200, .ok fetchMismatchBody⟩ fetchMismatchBody gdMismatch rfl rfl rfl
    (Or.inr (Or.inr (by decide)))

/-- C2: for every successful fetch returning record mapping R, the record
mapping sent in the write request (as its input_data query parameter) is the
serialization of R with key "A" replaced by (or inserted as) the
single-element list with the configured priority and ip.String(); every
non-"A" key keeps its fetched value unmodified, for any pre-existing value
of "A". -/
theorem write_payload_replaces_A_and_preserves_rest (p : Provider) (d : Transport) (ip : Addr)
    (resp : HTTPResponse) (fbody : Body) (cur : GetDataResponse)
    (hresp : d (fetchRequest p) = .ok resp)
    (hbody : resp.body = .ok fbody)
    (h200 : resp.statusCode = 200)
    (hdec : unmarshalGetData fbody = .ok cur)
    (hs : cur.status = "success") (has : cur.answer.status = "success")
    (hfq : cur.answer.result.fqdn = p.target) :
    (Update p d ip).2 = [fetchRequest p, changeRequest p ip cur.answer.result.records] ∧
    ("input_data", changePayload p ip cur.answer.result.records)
        ∈ (changeRequest p ip cur.answer.result.records).query ∧
    lookupAssoc (sortByKey (mergedRecords p ip cur.answer.result.records)) "A"
        = some (newAEntry p ip) ∧
    ∀ k, k ≠ "A" →
      lookupAssoc (sortByKey (mergedRecords p ip cur.answer.result.records)) k
        = lookupAssoc cur.answer.result.records k := by
  have hnd : NoDupKeys cur.answer.result.records := unmarshalGetData_noDupKeys fbody cur hdec
  have hmerged : NoDupKeys (mergedRecords p ip cur.answer.result.records) :=
    noDupKeys_insertAssoc _ "A" (newAEntry p ip) hnd
  refine ⟨?_, ?_, ?_, ?_⟩
  · rw [update_fetch_success p d ip resp fbody cur hresp hbody h200 hdec hs has hfq]
    simp [writePhase_request]
  · simp [changeRequest, buildRequest, setAccept, setUserAgent]
  · rw [lookupAssoc_sortByKey _ hmerged]
    exact lookupAssoc_insertAssoc_self _ "A" (newAEntry p ip)
  · intro k hk
    rw [lookupAssoc_sortByKey _ hmerged]
    exact lookupAssoc_insertAssoc_ne _ "A" k (newAEntry p ip) hk

/-- Witness for C2 on the worked example: the TXT record is preserved and the
A record is the configured priority with the new IP. -/
theorem write_payload_witness :
    (Update exampleProvider happyTransport (Addr.v4 203 0 113 5)).2 =
      [fetchRequest exampleProvider,
       changeRequest exampleProvider (Addr.v4 203 0 113 5) gdOk.answer.result.records] ∧
    ("input_data", changePayload exampleProvider (Addr.v4 203 0 113 5) gdOk.answer.result.records)
        ∈ (changeRequest exampleProvider (Addr.v4 203 0 113 5) gdOk.answer.result.records).query ∧
    lookupAssoc (sortByKey (mergedRecords exampleProvider (Addr.v4 203 0 113 5)
        gdOk.answer.result.records)) "A"
        = some (newAEntry exampleProvider (Addr.v4 203 0 113 5)) ∧
    ∀ k, k ≠ "A" →
      lookupAssoc (sortByKey (mergedRecords exampleProvider (Addr.v4 203 0 113 5)
          gdOk.answer.result.records)) k
        = lookupAssoc gdOk.answer.result.records k :=
  write_payload_replaces_A_and_preserves_rest exampleProvider happyTransport (Addr.v4 203 0 113 5)
    ⟨200, .ok fetchOkBody⟩ fetchOkBody gdOk rfl rfl rfl rfl rfl rfl rfl

/-- C3: when the write response carries both success statuses, Update returns
the input IP unchanged with no error (the IP echoes the input; the write
response's Result is never consulted for it). -/
theorem write_success_returns_input_ip (p : Provider) (d : Transport) (ip : Addr)
    (resp : HTTPResponse) (fbody : Body) (cur : GetDataResponse)
    (wresp : HTTPResponse) (wbody : Body) (wres : ChangeResponse)
    (hresp : d (fetchRequest p) = .ok resp)
    (hbody : resp.body = .ok fbody)
    (h200 : resp.statusCode = 200)
    (hdec : unmarshalGetData fbody = .ok cur)
    (hs : cur.status = "success") (has : cur.answer.status = "success")
    (hfq : cur.answer.result.fqdn = p.target)
    (hwresp : d (changeRequest p ip cur.answer.result.records) = .ok wresp)
    (hwbody : wresp.body = .ok wbody)
    (hwdec : unmarshalChange wbody = .ok wres)
    (hws : wres.status = "success") (hwas : wres.answer.status = "success") :
    (Update p d ip).1 = (ip, none) := by
  rw [update_fetch_success p d ip resp fbody cur hresp hbody h200 hdec hs has hfq]
  exact writePhase_success p d ip cur.answer.result.records wresp wbody wres hwresp hwbody
    hwdec hws hwas

/-- Witness for C3 on the worked example. -/
theorem write_success_witness :
    (Update exampleProvider happyTransport (Addr.v4 203 0 113 5)).1 = (Addr.v4 203 0 113 5, none) :=
  write_success_returns_input_ip exampleProvider happyTransport (Addr.v4 203 0 113 5)
    ⟨200, .ok fetchOkBody⟩ fetchOkBody gdOk ⟨200, .ok writeOkBody⟩ writeOkBody chOk
    rfl rfl rfl rfl rfl rfl rfl rfl rfl rfl rfl rfl

/-- C4 fails on the code: the error of the write-phase apiCall (provider.go
line 210) is discarded, because line 219 overwrites `err` without checking
it. Concretely, when the changeRecords call answers HTTP 500 with a body
whose envelope reads success, Update returns the input IP and no error at
all, instead of the transport error the claim requires. -/
theorem write_transport_error_swallowed :
    non200WriteTransport (changeRequest exampleProvider (Addr.v4 203 0 113 5)
        gdOk.answer.result.records) = .ok ⟨500, .ok writeOkBody⟩ ∧
    (Update exampleProvider non200WriteTransport (Addr.v4 203 0 113 5)).1
        = (Addr.v4 203 0 113 5, none) :=
  ⟨rfl, rfl⟩

/-- C5: when the write response decodes but lacks a success status, Update
returns an error whose message contains the single-line rendering of the raw
response body, and that rendering contains no newline character. -/
theorem write_rejected_single_line_error (p : Provider) (d : Transport) (ip : Addr)
    (resp : HTTPResponse) (fbody : Body) (cur : GetDataResponse)
    (wresp : HTTPResponse) (wbody : Body) (wres : ChangeResponse)
    (hresp : d (fetchRequest p) = .ok resp)
    (hbody : resp.body = .ok fbody)
    (h200 : resp.statusCode = 200)
    (hdec : unmarshalGetData fbody = .ok cur)
    (hs : cur.status = "success") (has : cur.answer.status = "success")
    (hfq : cur.answer.result.fqdn = p.target)
    (hwresp : d (changeRequest p ip cur.answer.result.records) = .ok wresp)
    (hwbody : wresp.body = .ok wbody)
    (hwdec : unmarshalChange wbody = .ok wres)
    (hfail : wres.status ≠ "success" ∨ wres.answer.status ≠ "success") :
    (Update p d ip).1.2 = some ("changeRequest response doesn\x27t indicate success: "
        ++ toSingleLine wbody.text) ∧
    '\n' ∉ (toSingleLine wbody.text).data := by
  refine ⟨?_, newline_not_mem_toSingleLine wbody.text⟩
  rw [update_fetch_success p d ip resp fbody cur hresp hbody h200 hdec hs has hfq,
    writePhase_rejected p d ip cur.answer.result.records wresp wbody wres hwresp hwbody
      hwdec hfail]

/-- Witness for C5: a write response with status "error" yields the
single-line diagnostic message. -/
theorem write_rejected_witness :
    (Update exampleProvider rejectedWriteTransport (Addr.v4 203 0 113 5)).1.2
        = some ("changeRequest response doesn\x27t indicate success: "
            ++ toSingleLine writeFailBody.text) ∧
    '\n' ∉ (toSingleLine writeFailBody.text).data :=
  write_rejected_single_line_error exampleProvider rejectedWriteTransport (Addr.v4 203 0 113 5)
    ⟨200, .ok fetchOkBody⟩ fetchOkBody gdOk ⟨200, .ok writeFailBody⟩ writeFailBody chFail
    rfl rfl rfl rfl rfl rfl rfl rfl rfl rfl (Or.inl (by decide))

/-- C6: a configuration blob whose domain field the validator rejects makes
New fail with an error wrapping the domain-validation error, producing no
provider instance. The validator `utils.CheckDomain` lives outside the
sources under study, so this holds for every validator verdict. -/
theorem invalid_domain_fails_construction (checkDomain : String → Option String)
    (data : Body) (domain owner : String) (extra : ExtraSettings) (e : String)
    (hdec : unmarshalExtraSettings data = .ok extra)
    (hbad : checkDomain extra.domain = some e) :
    New checkDomain data domain owner = .error (errDomainNotValid ++ ": " ++ e) := by
  simp [New, hdec, hbad]

/-- Witness for C6: a rejected domain string fails construction. -/
theorem invalid_domain_witness :
    New rejectDomain badDomainBody "not..a..domain" "@"
      = .error (errDomainNotValid ++ ": " ++ "domain not..a..domain is malformed") :=
  invalid_domain_fails_construction rejectDomain badDomainBody "not..a..domain" "@"
    extraBadDomain "domain not..a..domain is malformed" rfl rfl

/-- C7 as stated fails on the code: New performs no credential validation
(provider.go lines 42-74 check only the domain), so a blob with empty login
and password still produces a provider instance. -/
theorem empty_credentials_construction_succeeds :
    New acceptDomain emptyCredsBody "example.com" "@" =
      .ok { domain := "example.com", target := "example.com", owner := "@",
            login := "", password := "", priority := 10 } :=
  rfl

/-- C7 amended: New stores the unmarshalled login and password verbatim,
without validating them; any blob that unmarshals and whose domain passes
validation produces an instance, empty credentials included. -/
theorem construction_stores_credentials_verbatim (checkDomain : String → Option String)
    (data : Body) (domain owner : String) (extra : ExtraSettings)
    (hdec : unmarshalExtraSettings data = .ok extra)
    (hdom : checkDomain extra.domain = none) :
    New checkDomain data domain owner =
      .ok { domain := domain, target := extra.domain, owner := owner,
            login := extra.login, password := extra.password, priority := extra.priority } := by
  simp [New, hdec, hdom]

/-- Witness for the amended C7 at the empty-credentials blob. -/
theorem construction_stores_credentials_witness :
    New acceptDomain emptyCredsBody "example.com" "@" =
      .ok { domain := "example.com", target := extraEmptyCreds.domain, owner := "@",
            login := extraEmptyCreds.login, password := extraEmptyCreds.password,
            priority := extraEmptyCreds.priority } :=
  construction_stores_credentials_verbatim acceptDomain emptyCredsBody "example.com" "@"
    extraEmptyCreds rfl rfl

/-- C8: the request apiCall issues is an HTTPS GET to the fixed host
api.beget.com at the given path, whose query parameters are exactly login,
passwd, input_format=json, output_format=json and input_data (the serialized
payload), with no request body, the Accept header set to application/json
and the fixed user-agent set. -/
theorem api_request_shape (p : Provider) (d : Transport) (endpoint payload : String) :
    (apiCall p d endpoint payload).2 = buildRequest p endpoint payload ∧
    (buildRequest p endpoint payload).scheme = "https" ∧
    (buildRequest p endpoint payload).host = "api.beget.com" ∧
    (buildRequest p endpoint payload).method = "GET" ∧
    (buildRequest p endpoint payload).path = endpoint ∧
    (buildRequest p endpoint payload).body = none ∧
    (buildRequest p endpoint payload).query =
      [("login", p.login), ("passwd", p.password), ("input_format", "json"),
       ("output_format", "json"), ("input_data", payload)] ∧
    (buildRequest p endpoint payload).accept = "application/json" ∧
    (buildRequest p endpoint payload).userAgent = "DDNS-Updater" :=
  ⟨apiCall_request p d endpoint payload, rfl, rfl, rfl, rfl, rfl, rfl, rfl, rfl⟩

/-- C9: for a received response with readable body, a non-200 status code
makes apiCall return the fully-read body together with an error, while a 200
status code returns the body with no error. -/
theorem apiCall_status_behaviour (p : Provider) (d : Transport) (endpoint payload : String)
    (resp : HTTPResponse) (b : Body)
    (hresp : d (buildRequest p endpoint payload) = .ok resp)
    (hbody : resp.body = .ok b) :
    (resp.statusCode ≠ 200 →
      (apiCall p d endpoint payload).1 =
        (b, some (endpoint ++ ": HTTP status is " ++ toString resp.statusCode))) ∧
    (resp.statusCode = 200 → (apiCall p d endpoint payload).1 = (b, none)) := by
  constructor
  · intro h
    rw [apiCall_non200 p d endpoint payload resp b hresp hbody h]
  · intro h
    rw [apiCall_ok p d endpoint payload resp b hresp hbody h]

/-- Witness for C9: an HTTP 418 response returns its body alongside the
status error. -/
theorem apiCall_status_witness :
    ((418 : Nat) ≠ 200 →
      (apiCall exampleProvider teapotTransport "api/dns/getData" "x").1 =
        (.malformed "I am a teapot",
          some ("api/dns/getData" ++ ": HTTP status is " ++ toString (418 : Nat)))) ∧
    ((418 : Nat) = 200 →
      (apiCall exampleProvider teapotTransport "api/dns/getData" "x").1 =
        (.malformed "I am a teapot", none)) :=
  apiCall_status_behaviour exampleProvider teapotTransport "api/dns/getData" "x"
    ⟨418, .ok (.malformed "I am a teapot")⟩ (.malformed "I am a teapot") rfl rfl

/-- C10: on every error return of Update the returned address is the zero
netip.Addr; equivalently, every Update result either has no error or carries
the zero (invalid) address, so a valid IP is never paired with an error. -/
theorem error_returns_zero_addr (p : Provider) (d : Transport) (ip : Addr) :
    (Update p d ip).1.2 = none ∨ (Update p d ip).1.1 = Addr.zero := by
  simp only [Update, writePhase]
  split
  · exact Or.inr rfl
  · split
    · exact Or.inr rfl
    · split
      · exact Or.inr rfl
      · split
        · exact Or.inr rfl
        · split
          · exact Or.inr rfl
          · exact Or.inl rfl
